import Mathlib

/-!
# whisk: the wizard controller and the project generator

A shallow embedding of `main.go`: the Bubble Tea model (`state`, `model`,
`Update`) and the generator (`createProject` with the three main-file
templates).

External collaborators are parameters:

* the terminal widgets (`textinput.Model`, `list.Model`, `tea.KeyMsg`) are the
  fields of `Widgets`;
* the operating system (`os.MkdirAll`, `os.WriteFile`, `filepath.Join`,
  `fmt.Errorf`) is the structure `OS`, acting on an abstract world `σ`;
* `fmt.Sprintf` is embedded for string operands and the verbs this program uses.

`createProject` returns, next to its Go return value, the world it leaves and
the list of filesystem calls it made, in order.
-/

namespace Whisk

/-! ## Data model -/

/-- The wizard states, `type state int` with its `iota` constants. -/
inductive state where
  | stateProjectName
  | stateGitRepo
  | stateProjectType
  | stateConfirm
  | stateCreating
  | stateDone
  deriving DecidableEq, Repr

/-- The integer value of a state constant (`iota`). -/
def state.toNat : state → Nat
  | .stateProjectName => 0
  | .stateGitRepo => 1
  | .stateProjectType => 2
  | .stateConfirm => 3
  | .stateCreating => 4
  | .stateDone => 5

/-- The list item `projectType`. -/
structure projectType where
  name : String
  description : String
  deriving DecidableEq, Repr

/-- The items given to `list.New` in `initialModel`. -/
def items : List projectType :=
  [ { name := "cli", description := "Command-line application" },
    { name := "server", description := "HTTP/API server" },
    { name := "library", description := "Reusable package/library" } ]

/-- The session record `model`; `TI` is `textinput.Model`, `L` is `list.Model`,
`E` is the type of non-nil `error` values (`err = none` is `nil`). -/
structure model (TI L E : Type) where
  state : Whisk.state
  projectName : TI
  gitRepo : TI
  typeList : L
  err : Option E

/-- A `tea.Msg`, split the way the type switch of `Update` splits it: a
`tea.KeyMsg`, a value implementing `error`, `doneMsg`, or anything else. -/
inductive Msg (K E O : Type) where
  | key (k : K)
  | error (e : E)
  | doneMsg
  | other (o : O)

/-- A `tea.Cmd` as returned by `Update`: `nil`, `tea.Quit`, `textinput.Blink`,
the `tea.Sequence` closure running `createProject(m)`, or a command handed back
by a widget. -/
inductive Cmd (TI L E C : Type) where
  | nil
  | quit
  | blink
  | generate (m : model TI L E)
  | widget (c : C)

/-- The widget library as used by `main.go`. -/
structure Widgets (TI L K E O C : Type) where
  /-- The method `tea.KeyMsg.String`. -/
  keyString : K → String
  /-- The method `textinput.Model.Value`. -/
  value : TI → String
  /-- The method `textinput.Model.Focus` (pointer receiver; its result is dropped). -/
  focus : TI → TI
  /-- The method `textinput.Model.Update`. -/
  inputUpdate : TI → Msg K E O → TI × C
  /-- The method `list.Model.Update`. -/
  listUpdate : L → Msg K E O → L × C
  /-- The expression `typeList.SelectedItem().(projectType)`; `none` when not `ok`. -/
  selectedItem : L → Option projectType

/-- A call made to the filesystem. -/
inductive FsOp where
  | mkdirAll (path : String) (perm : Nat)
  | writeFile (path : String) (data : String) (perm : Nat)
  deriving DecidableEq, Repr

/-- The operating-system interface used by `createProject`. -/
structure OS (σ E : Type) where
  /-- The calls `os.MkdirAll` and `os.WriteFile`: the new world and the error (`none` is `nil`). -/
  exec : σ → FsOp → σ × Option E
  /-- The function `filepath.Join` on two elements. -/
  join : String → String → String
  /-- The function `fmt.Errorf` on a constant message. -/
  errorf : String → E

/-- What a run of `createProject` leaves: the world, the filesystem calls made
(in order), and the returned error. -/
structure Run (σ E : Type) where
  world : σ
  trace : List FsOp
  result : Option E

/-! ## `fmt.Sprintf` on string operands -/

/-- The suffix `%!(EXTRA string=a, string=b)` for operands left over. -/
def extraArgs : List String → List Char
  | [] => []
  | a :: rest =>
    "%!(EXTRA string=".data ++ a.data ++ (rest.flatMap fun b => ", string=".data ++ b.data) ++ [')']

/-- The scanner of `fmt.Sprintf`; the flag says that the previous character was
an unfinished `%`. Verbs `%%`, `%s`, `%v`; any other verb letter is a bad verb
for a string operand. Flags, width and precision do not occur in this program. -/
def sprintfAux : Bool → List Char → List String → List Char
  | false, [], args => extraArgs args
  | true, [], args => "%!(NOVERB)".data ++ extraArgs args
  | false, c :: rest, args =>
    if c = '%' then sprintfAux true rest args else c :: sprintfAux false rest args
  | true, c :: rest, args =>
    if c = '%' then '%' :: sprintfAux false rest args
    else
      match args with
      | [] => ['%', '!', c] ++ "(MISSING)".data ++ sprintfAux false rest []
      | a :: more =>
        if c = 's' ∨ c = 'v' then a.data ++ sprintfAux false rest more
        else ['%', '!', c] ++ "(string=".data ++ a.data ++ [')'] ++ sprintfAux false rest more

/-- The function `fmt.Sprintf` with string operands. -/
def Sprintf (format : String) (args : List String) : String :=
  ⟨sprintfAux false format.data args⟩

/-! ## Templates (the raw string literals of `main.go`) -/

/-- The raw string passed to `fmt.Sprintf` in `generateCliMainFile`. -/
def cliTemplate : String := "package main\n\nimport (\n\t\"fmt\"\n\t\"os\"\n\n\t\"github.com/charmbracelet/bubbles/help\"\n\t\"github.com/charmbracelet/bubbles/key\"\n\ttea \"github.com/charmbracelet/bubbletea\"\n\t\"github.com/charmbracelet/lipgloss\"\n)\n\nvar (\n\tappStyle = lipgloss.NewStyle().\n\t\tPadding(1, 2)\n\t\n\ttitleStyle = lipgloss.NewStyle().\n\t\tForeground(lipgloss.Color(\"#FAFAFA\")).\n\t\tBackground(lipgloss.Color(\"#7D56F4\")).\n\t\tPadding(0, 1).\n\t\tBold(true)\n)\n\ntype keyMap struct \x7b\n\tHelp key.Binding\n\tQuit key.Binding\n\x7d\n\nfunc (k keyMap) ShortHelp() []key.Binding \x7b\n\treturn []key.Binding\x7bk.Help, k.Quit\x7d\n\x7d\n\nfunc (k keyMap) FullHelp() [][]key.Binding \x7b\n\treturn [][]key.Binding\x7b\n\t\t\x7bk.Help, k.Quit\x7d,\n\t\x7d\n\x7d\n\nvar keys = keyMap\x7b\n\tHelp: key.NewBinding(\n\t\tkey.WithKeys(\"?\"),\n\t\tkey.WithHelp(\"?\", \"help\"),\n\t),\n\tQuit: key.NewBinding(\n\t\tkey.WithKeys(\"q\", \"ctrl+c\", \"esc\"),\n\t\tkey.WithHelp(\"q\", \"quit\"),\n\t),\n\x7d\n\ntype model struct \x7b\n\tkeys keyMap\n\thelp help.Model\n\x7d\n\nfunc initialModel() model \x7b\n\treturn model\x7b\n\t\tkeys: keys,\n\t\thelp: help.New(),\n\t\x7d\n\x7d\n\nfunc (m model) Init() tea.Cmd \x7b\n\treturn nil\n\x7d\n\nfunc (m model) Update(msg tea.Msg) (tea.Model, tea.Cmd) \x7b\n\tswitch msg := msg.(type) \x7b\n\tcase tea.KeyMsg:\n\t\tswitch \x7b\n\t\tcase key.Matches(msg, m.keys.Quit):\n\t\t\treturn m, tea.Quit\n\t\tcase key.Matches(msg, m.keys.Help):\n\t\t\tm.help.ShowAll = !m.help.ShowAll\n\t\t\x7d\n\t\x7d\n\t\n\treturn m, nil\n\x7d\n\nfunc (m model) View() string \x7b\n\ts := titleStyle.Render(\"CLI Application\") + \"\\n\\n\"\n\ts += \"Welcome to your new CLI application!\\n\\n\"\n\ts += m.help.View(m.keys)\n\t\n\treturn appStyle.Render(s)\n\x7d\n\nfunc main() \x7b\n\tp := tea.NewProgram(initialModel())\n\tif _, err := p.Run(); err != nil \x7b\n\t\tfmt.Printf(\"Error running program: %%v\\n\", err)\n\t\tos.Exit(1)\n\t\x7d\n\x7d\n"

/-- The raw string passed to `fmt.Sprintf` in `generateServerMainFile`. -/
def serverTemplate : String := "package main\n\nimport (\n\t\"context\"\n\t\"fmt\"\n\t\"log\"\n\t\"net/http\"\n\t\"os\"\n\t\"os/signal\"\n\t\"syscall\"\n\t\"time\"\n\n\t\"%s/internal/handlers\"\n)\n\nfunc main() \x7b\n\t// Setup logger\n\tlogger := log.New(os.Stdout, \"\", log.LstdFlags)\n\t\n\t// Create router (using standard library for simplicity)\n\tmux := http.NewServeMux()\n\t\n\t// Register routes\n\tmux.HandleFunc(\"/health\", handlers.HealthHandler)\n\t\n\t// Create server\n\tserver := &http.Server\x7b\n\t\tAddr:         \":8080\",\n\t\tHandler:      mux,\n\t\tReadTimeout:  10 * time.Second,\n\t\tWriteTimeout: 10 * time.Second,\n\t\tIdleTimeout:  15 * time.Second,\n\t\x7d\n\t\n\t// Start server in a goroutine\n\tgo func() \x7b\n\t\tlogger.Println(\"Starting server on :8080\")\n\t\tif err := server.ListenAndServe(); err != nil && err != http.ErrServerClosed \x7b\n\t\t\tlogger.Fatalf(\"Server error: %%v\", err)\n\t\t\x7d\n\t\x7d()\n\t\n\t// Wait for interrupt signal\n\tquit := make(chan os.Signal, 1)\n\tsignal.Notify(quit, syscall.SIGINT, syscall.SIGTERM)\n\t<-quit\n\t\n\t// Shutdown gracefully\n\tlogger.Println(\"Shutting down server...\")\n\tctx, cancel := context.WithTimeout(context.Background(), 5*time.Second)\n\tdefer cancel()\n\t\n\tif err := server.Shutdown(ctx); err != nil \x7b\n\t\tlogger.Fatalf(\"Server forced to shutdown: %%v\", err)\n\t\x7d\n\t\n\tlogger.Println(\"Server exited properly\")\n\x7d\n"

/-- The raw string returned by `generateLibraryMainFile`. -/
def libraryTemplate : String := "// Package main is a placeholder for the library\n// In a real library, you would have multiple packages organized in subdirectories\npackage main\n\nimport \"fmt\"\n\nfunc main() \x7b\n\tfmt.Println(\"This is a placeholder for your library.\")\n\tfmt.Println(\"In a real library, this file would be replaced with proper packages.\")\n\x7d\n"

/-- The raw string passed to `fmt.Sprintf` for `handlerContent`. -/
def handlerTemplate : String := "package handlers\n\nimport (\n\t\"net/http\"\n)\n\n// HealthHandler returns a simple health check response\nfunc HealthHandler(w http.ResponseWriter, r *http.Request) \x7b\n\tw.Header().Set(\"Content-Type\", \"application/json\")\n\tw.WriteHeader(http.StatusOK)\n\tw.Write([]byte(\"\x7b\\\\\"status\\\\\": \\\\\"ok\\\\\"\x7d\"))\n\x7d\n"

/-- The string `gitignoreContent`. -/
def gitignoreContent : String := "# Binaries for programs and plugins\n*.exe\n*.exe~\n*.dll\n*.so\n*.dylib\n\n# Test binary, built with \x60go test -c\x60\n*.test\n\n# Output of the go coverage tool, specifically when used with LiteIDE\n*.out\n\n# Dependency directories (remove the comment below to include it)\n# vendor/\n"

def generateCliMainFile (_gitRepo : String) : String :=
  Sprintf cliTemplate []

def generateServerMainFile (gitRepo : String) : String :=
  Sprintf serverTemplate [gitRepo]

def generateLibraryMainFile (_gitRepo : String) : String :=
  libraryTemplate

/-- The `switch projectType` that picks `mainContent` in `createProject`. -/
def mainContent (projectType gitRepo : String) : String :=
  if projectType = "cli" then generateCliMainFile gitRepo
  else if projectType = "server" then generateServerMainFile gitRepo
  else generateLibraryMainFile gitRepo

/-- The value of `handlerContent` in `createProject`. -/
def handlerContent : String :=
  Sprintf handlerTemplate []

/-- The server main file up to the import path: the text of `serverTemplate`
before its `%s`. -/
def serverMainHead : String := "package main\n\nimport (\n\t\"context\"\n\t\"fmt\"\n\t\"log\"\n\t\"net/http\"\n\t\"os\"\n\t\"os/signal\"\n\t\"syscall\"\n\t\"time\"\n\n\t\""

/-- The server main file after the import path: the text of `serverTemplate`
after its `%s`, each `%%` printed as `%`. -/
def serverMainTail : String := "/internal/handlers\"\n)\n\nfunc main() \x7b\n\t// Setup logger\n\tlogger := log.New(os.Stdout, \"\", log.LstdFlags)\n\t\n\t// Create router (using standard library for simplicity)\n\tmux := http.NewServeMux()\n\t\n\t// Register routes\n\tmux.HandleFunc(\"/health\", handlers.HealthHandler)\n\t\n\t// Create server\n\tserver := &http.Server\x7b\n\t\tAddr:         \":8080\",\n\t\tHandler:      mux,\n\t\tReadTimeout:  10 * time.Second,\n\t\tWriteTimeout: 10 * time.Second,\n\t\tIdleTimeout:  15 * time.Second,\n\t\x7d\n\t\n\t// Start server in a goroutine\n\tgo func() \x7b\n\t\tlogger.Println(\"Starting server on :8080\")\n\t\tif err := server.ListenAndServe(); err != nil && err != http.ErrServerClosed \x7b\n\t\t\tlogger.Fatalf(\"Server error: %v\", err)\n\t\t\x7d\n\t\x7d()\n\t\n\t// Wait for interrupt signal\n\tquit := make(chan os.Signal, 1)\n\tsignal.Notify(quit, syscall.SIGINT, syscall.SIGTERM)\n\t<-quit\n\t\n\t// Shutdown gracefully\n\tlogger.Println(\"Shutting down server...\")\n\tctx, cancel := context.WithTimeout(context.Background(), 5*time.Second)\n\tdefer cancel()\n\t\n\tif err := server.Shutdown(ctx); err != nil \x7b\n\t\tlogger.Fatalf(\"Server forced to shutdown: %v\", err)\n\t\x7d\n\t\n\tlogger.Println(\"Server exited properly\")\n\x7d\n"

/-! ## The generator -/

section Generator

variable {TI L K E O C σ : Type}

/-- The second `switch projectType` of `createProject`: every result is
dropped, every call is made. -/
def createStructure (S : OS σ E) (projectName projectType : String) (w : σ) :
    σ × List FsOp :=
  if projectType = "cli" then
    let op1 := FsOp.mkdirAll (S.join projectName "cmd") 0o755
    let op2 := FsOp.mkdirAll (S.join projectName "internal") 0o755
    let w1 := (S.exec w op1).1
    let w2 := (S.exec w1 op2).1
    (w2, [op1, op2])
  else if projectType = "server" then
    let op1 := FsOp.mkdirAll (S.join projectName "api") 0o755
    let op2 := FsOp.mkdirAll (S.join projectName "internal/handlers") 0o755
    let op3 := FsOp.mkdirAll (S.join projectName "internal/middleware") 0o755
    let op4 := FsOp.writeFile (S.join projectName "internal/handlers/health.go") handlerContent 0o644
    let w1 := (S.exec w op1).1
    let w2 := (S.exec w1 op2).1
    let w3 := (S.exec w2 op3).1
    let w4 := (S.exec w3 op4).1
    (w4, [op1, op2, op3, op4])
  else (w, [])

/-- The function `createProject`, run in world `w`. -/
def createProject (W : Widgets TI L K E O C) (S : OS σ E) (m : model TI L E) (w : σ) :
    Run σ E :=
  let projectName := W.value m.projectName
  let gitRepo := W.value m.gitRepo
  match W.selectedItem m.typeList with
  | none => ⟨w, [], some (S.errorf "invalid project type selection")⟩
  | some item =>
    let projectType := item.name
    let mkRoot := FsOp.mkdirAll projectName 0o755
    match S.exec w mkRoot with
    | (w1, some err) => ⟨w1, [mkRoot], some err⟩
    | (w1, none) =>
      let goModContent := Sprintf "module %s\n\ngo 1.21\n" [gitRepo]
      let wrMod := FsOp.writeFile (S.join projectName "go.mod") goModContent 0o644
      match S.exec w1 wrMod with
      | (w2, some err) => ⟨w2, [mkRoot, wrMod], some err⟩
      | (w2, none) =>
        let wrMain := FsOp.writeFile (S.join projectName "main.go")
          (mainContent projectType gitRepo) 0o644
        match S.exec w2 wrMain with
        | (w3, some err) => ⟨w3, [mkRoot, wrMod, wrMain], some err⟩
        | (w3, none) =>
          let readmeContent := Sprintf "# %s\n\nA Go %s project.\n" [projectName, projectType]
          let wrReadme := FsOp.writeFile (S.join projectName "README.md") readmeContent 0o644
          match S.exec w3 wrReadme with
          | (w4, some err) => ⟨w4, [mkRoot, wrMod, wrMain, wrReadme], some err⟩
          | (w4, none) =>
            let wrIgnore := FsOp.writeFile (S.join projectName ".gitignore") gitignoreContent 0o644
            match S.exec w4 wrIgnore with
            | (w5, some err) => ⟨w5, [mkRoot, wrMod, wrMain, wrReadme, wrIgnore], some err⟩
            | (w5, none) =>
              let extra := createStructure S projectName projectType w5
              ⟨extra.1, [mkRoot, wrMod, wrMain, wrReadme, wrIgnore] ++ extra.2, none⟩

/-- The closure given to `tea.Sequence`: run `createProject`, answer with the
error or with `doneMsg`. -/
def generateMsg (W : Widgets TI L K E O C) (S : OS σ E) (m : model TI L E) (w : σ) :
    Msg K E O :=
  match (createProject W S m w).result with
  | some err => .error err
  | none => .doneMsg

end Generator

/-! ## The wizard controller -/

section Controller

variable {TI L K E O C : Type}

/-- The value returned by `initialModel`, given the three widgets it builds. -/
def initialModel (pn gr : TI) (l : L) : model TI L E :=
  { state := .stateProjectName, projectName := pn, gitRepo := gr, typeList := l, err := none }

/-- The tail of `Update` ("Handle input updates based on current state"). -/
def inputUpdates (W : Widgets TI L K E O C) (m : model TI L E) (msg : Msg K E O) :
    model TI L E × Cmd TI L E C :=
  match m.state with
  | .stateProjectName =>
    let r := W.inputUpdate m.projectName msg
    ({ m with projectName := r.1 }, .widget r.2)
  | .stateGitRepo =>
    let r := W.inputUpdate m.gitRepo msg
    ({ m with gitRepo := r.1 }, .widget r.2)
  | .stateProjectType =>
    let r := W.listUpdate m.typeList msg
    ({ m with typeList := r.1 }, .widget r.2)
  | _ => (m, .nil)

/-- The method `model.Update`. -/
def Update (W : Widgets TI L K E O C) (m : model TI L E) (msg : Msg K E O) :
    model TI L E × Cmd TI L E C :=
  match msg with
  | .key k =>
    if W.keyString k = "ctrl+c" ∨ W.keyString k = "esc" then (m, .quit)
    else if W.keyString k = "enter" then
      match m.state with
      | .stateProjectName =>
        if W.value m.projectName ≠ "" then
          ({ m with state := .stateGitRepo, gitRepo := W.focus m.gitRepo }, .blink)
        else inputUpdates W m msg
      | .stateGitRepo =>
        if W.value m.gitRepo ≠ "" then ({ m with state := .stateProjectType }, .nil)
        else inputUpdates W m msg
      | .stateProjectType => ({ m with state := .stateConfirm }, .nil)
      | .stateConfirm =>
        ({ m with state := .stateCreating }, .generate { m with state := .stateCreating })
      | .stateCreating => inputUpdates W m msg
      | .stateDone => (m, .quit)
    else inputUpdates W m msg
  | .error e => ({ m with err := some e, state := .stateDone }, .nil)
  | .doneMsg => ({ m with state := .stateDone }, .nil)
  | .other _ => inputUpdates W m msg

/-- The event loop, one message after the other: the session after a list of
messages, in arrival order. -/
def runMsgs (W : Widgets TI L K E O C) (m : model TI L E) (msgs : List (Msg K E O)) :
    model TI L E :=
  msgs.foldl (fun s msg => (Update W s msg).1) m

end Controller

/-! ## Steps of the generator, as the specification lists them -/

section Steps

variable {σ E : Type}

/-- The five required steps of the specification (section 4.2, steps 1 to 5),
in order, for a name, a repository path and an archetype name. -/
def specRequiredSteps (S : OS σ E) (name repo archetype : String) : List FsOp :=
  [ .mkdirAll name 0o755,
    .writeFile (S.join name "go.mod") ("module " ++ repo ++ "\n\ngo 1.21\n") 0o644,
    .writeFile (S.join name "main.go") (mainContent archetype repo) 0o644,
    .writeFile (S.join name "README.md") ("# " ++ name ++ "\n\nA Go " ++ archetype ++ " project.\n") 0o644,
    .writeFile (S.join name ".gitignore") gitignoreContent 0o644 ]

/-- The archetype-specific step of the specification (section 4.2, step 6). -/
def specArchetypeSteps (S : OS σ E) (name archetype : String) : List FsOp :=
  if archetype = "cli" then
    [ .mkdirAll (S.join name "cmd") 0o755, .mkdirAll (S.join name "internal") 0o755 ]
  else if archetype = "server" then
    [ .mkdirAll (S.join name "api") 0o755,
      .mkdirAll (S.join name "internal/handlers") 0o755,
      .mkdirAll (S.join name "internal/middleware") 0o755,
      .writeFile (S.join name "internal/handlers/health.go") handlerContent 0o644 ]
  else []

/-- Run a list of steps in order and stop at the first failure: the world
left, the steps performed, and that failure. -/
def runUntilFailure (S : OS σ E) : σ → List FsOp → Run σ E
  | w, [] => ⟨w, [], none⟩
  | w, op :: rest =>
    match S.exec w op with
    | (w1, some err) => ⟨w1, [op], some err⟩
    | (w1, none) =>
      let r := runUntilFailure S w1 rest
      ⟨r.world, op :: r.trace, r.result⟩

/-- Run a list of steps in order, dropping every result. -/
def runAll (S : OS σ E) : σ → List FsOp → σ
  | w, [] => w
  | w, op :: rest => runAll S (S.exec w op).1 rest

/-- The error returned by step `i` of a list of steps, when the steps before it
have been run; `none` when it succeeds (or when there is no step `i`). -/
def stepResult (S : OS σ E) (w : σ) (steps : List FsOp) (i : Nat) : Option E :=
  match steps[i]? with
  | some op => (S.exec (runAll S w (steps.take i)) op).2
  | none => none

end Steps

/-! ## Text search, for statements about generated text -/

/-- Whether `sub` occurs in a text as a contiguous run of characters. -/
def occursIn (sub : List Char) : List Char → Bool
  | [] => sub.isEmpty
  | c :: rest => sub.isPrefixOf (c :: rest) || occursIn sub rest

/-! ## A small instance of the collaborators, for evaluation -/

/-- Widgets for evaluation: a text input is its value, a key is its name, the
list is the cursor over `items`. A one-character key is typed, `backspace`
deletes, `up` and `down` move the cursor. -/
def simWidgets : Widgets String Nat String String Unit Unit where
  keyString := fun k => k
  value := fun t => t
  focus := fun t => t
  inputUpdate := fun t msg =>
    match msg with
    | .key k =>
      if k.length = 1 then (t ++ k, ())
      else if k = "backspace" then (t.dropRight 1, ())
      else (t, ())
    | _ => (t, ())
  listUpdate := fun l msg =>
    match msg with
    | .key k =>
      if k = "down" then (min (l + 1) 2, ())
      else if k = "up" then (l - 1, ())
      else (l, ())
    | _ => (l, ())
  selectedItem := fun l => items.get? l

/-- The path of a filesystem call. -/
def FsOp.path : FsOp → String
  | .mkdirAll p _ => p
  | .writeFile p _ _ => p

/-- An operating system for evaluation: the world is the list of calls that
succeeded; a call on a path in `deny` fails and changes nothing. -/
def simOS (deny : List String) : OS (List FsOp) String where
  exec := fun w op =>
    if op.path ∈ deny then (w, some ("permission denied: " ++ op.path))
    else (w ++ [op], none)
  join := fun a b => a ++ "/" ++ b
  errorf := fun s => s

/-- A session of `simWidgets` in a given state. -/
def simSession (st : state) (name repo : String) (cursor : Nat) : model String Nat String :=
  { state := st, projectName := name, gitRepo := repo, typeList := cursor, err := none }


/-! ## The wizard controller: theorems -/

section ControllerTheorems

variable {TI L K E O C : Type}

theorem inputUpdates_state (W : Widgets TI L K E O C) (m : model TI L E) (msg : Msg K E O) :
    (inputUpdates W m msg).1.state = m.state := by
  unfold inputUpdates
  split <;> rfl

theorem inputUpdates_err (W : Widgets TI L K E O C) (m : model TI L E) (msg : Msg K E O) :
    (inputUpdates W m msg).1.err = m.err := by
  unfold inputUpdates
  split <;> rfl

theorem inputUpdates_not_generate (W : Widgets TI L K E O C) (m : model TI L E)
    (msg : Msg K E O) (g : model TI L E) : (inputUpdates W m msg).2 ≠ .generate g := by
  unfold inputUpdates
  split <;> simp

/-- C1: in `stateProjectName` with an empty project name, or in `stateGitRepo`
with an empty repository path, an `enter` key leaves the state as it is, leaves
the error as it is, and the command returned is not the generation command. -/
theorem empty_confirm_stays (W : Widgets TI L K E O C) (m : model TI L E) (k : K)
    (hk : W.keyString k = "enter")
    (h : (m.state = .stateProjectName ∧ W.value m.projectName = "") ∨
         (m.state = .stateGitRepo ∧ W.value m.gitRepo = "")) :
    (Update W m (.key k)).1.state = m.state ∧
    (Update W m (.key k)).1.err = m.err ∧
    ∀ g, (Update W m (.key k)).2 ≠ .generate g := by
  have hu : Update W m (.key k) = inputUpdates W m (.key k) := by
    rcases h with ⟨hs, hv⟩ | ⟨hs, hv⟩ <;> simp [Update, hk, hs, hv]
  rw [hu]
  exact ⟨inputUpdates_state W m _, inputUpdates_err W m _, inputUpdates_not_generate W m _⟩

theorem empty_confirm_stays_witness :
    (Update simWidgets (simSession .stateProjectName "" "" 0) (.key "enter")).1.state
        = .stateProjectName ∧
    (Update simWidgets (simSession .stateProjectName "" "" 0) (.key "enter")).1.err = none ∧
    ∀ g, (Update simWidgets (simSession .stateProjectName "" "" 0)
        (.key "enter" : Msg String String Unit)).2 ≠ .generate g :=
  empty_confirm_stays simWidgets (simSession .stateProjectName "" "" 0) "enter" rfl
    (Or.inl ⟨rfl, rfl⟩)

/-- C3: in every state and for every field content, a key whose name is
`ctrl+c` or `esc` makes `Update` return the session as it was together with
`tea.Quit`; the generation command is not returned. -/
theorem cancel_quits (W : Widgets TI L K E O C) (m : model TI L E) (k : K)
    (hk : W.keyString k = "ctrl+c" ∨ W.keyString k = "esc") :
    Update W m (.key k) = (m, .quit) ∧ ∀ g, (Update W m (.key k)).2 ≠ .generate g := by
  have hu : Update W m (.key k) = (m, .quit) := by simp [Update, hk]
  rw [hu]
  exact ⟨rfl, fun g => by simp⟩

theorem cancel_quits_witness :
    Update simWidgets (simSession .stateCreating "demo" "example.com/u/demo" 1) (.key "esc")
        = (simSession .stateCreating "demo" "example.com/u/demo" 1, .quit) ∧
    ∀ g, (Update simWidgets (simSession .stateCreating "demo" "example.com/u/demo" 1)
        (.key "esc" : Msg String String Unit)).2 ≠ .generate g :=
  cancel_quits simWidgets (simSession .stateCreating "demo" "example.com/u/demo" 1) "esc"
    (Or.inr rfl)

/-- C4: the state never regresses: for every session and every message, the
state after `Update` is at or after the state before, in the order of the
`iota` constants. -/
theorem state_never_regresses (W : Widgets TI L K E O C) (m : model TI L E)
    (msg : Msg K E O) : m.state.toNat ≤ (Update W m msg).1.state.toNat := by
  cases msg with
  | key k =>
    unfold Update
    simp only
    split
    · exact le_refl _
    · split
      · split <;> rename_i hs
        · split
          · simp [hs, state.toNat]
          · rw [inputUpdates_state]
        · split
          · simp [hs, state.toNat]
          · rw [inputUpdates_state]
        · simp [hs, state.toNat]
        · simp [hs, state.toNat]
        · rw [inputUpdates_state]
        · exact le_refl _
      · rw [inputUpdates_state]
  | error e =>
    simp only [Update]
    cases m.state <;> simp [state.toNat]
  | doneMsg =>
    simp only [Update]
    cases m.state <;> simp [state.toNat]
  | other o =>
    simp only [Update]
    rw [inputUpdates_state]

/-- C2: each `enter` key moves the state one step, under the condition of its
own screen: from `stateProjectName` with a non-empty project name to
`stateGitRepo` (the repository field gets the focus; its content is not looked
at); from `stateGitRepo` with a non-empty repository path to `stateProjectType`;
from `stateProjectType`, whatever the selection, to `stateConfirm`; from
`stateConfirm` to `stateCreating`, and this `enter` alone returns the
generation command, for the session as it then is. No other field changes. A
`doneMsg` in `stateCreating` gives `stateDone` and leaves the error as it was,
so none is recorded. From `stateGitRepo` with a non-empty path, three `enter`
keys in a row lead to `stateCreating`. -/
theorem confirm_path (W : Widgets TI L K E O C) (k : K) (hk : W.keyString k = "enter") :
    (∀ m : model TI L E, m.state = .stateProjectName → W.value m.projectName ≠ "" →
      Update W m (.key k)
        = ({ m with state := .stateGitRepo, gitRepo := W.focus m.gitRepo }, .blink)) ∧
    (∀ m : model TI L E, m.state = .stateGitRepo → W.value m.gitRepo ≠ "" →
      Update W m (.key k) = ({ m with state := .stateProjectType }, .nil)) ∧
    (∀ m : model TI L E, m.state = .stateProjectType →
      Update W m (.key k) = ({ m with state := .stateConfirm }, .nil)) ∧
    (∀ m : model TI L E, m.state = .stateConfirm →
      Update W m (.key k)
        = ({ m with state := .stateCreating }, .generate { m with state := .stateCreating })) ∧
    (∀ m : model TI L E, m.state = .stateCreating →
      Update W m .doneMsg = ({ m with state := .stateDone }, (.nil : Cmd TI L E C)) ∧
      (Update W m .doneMsg).1.err = m.err ∧
      (m.err = none → (Update W m .doneMsg).1.err = none)) ∧
    (∀ m : model TI L E, m.state = .stateGitRepo → W.value m.gitRepo ≠ "" →
      runMsgs W m [.key k, .key k, .key k] = { m with state := .stateCreating } ∧
      runMsgs W m [.key k, .key k, .key k, .doneMsg] = { m with state := .stateDone }) := by
  have h1 : ∀ m : model TI L E, m.state = .stateProjectName → W.value m.projectName ≠ "" →
      Update W m (.key k)
        = ({ m with state := .stateGitRepo, gitRepo := W.focus m.gitRepo }, .blink) := by
    intro m hs hn
    simp [Update, hk, hs, hn]
  have h2 : ∀ m : model TI L E, m.state = .stateGitRepo → W.value m.gitRepo ≠ "" →
      Update W m (.key k) = ({ m with state := .stateProjectType }, .nil) := by
    intro m hs hr
    simp [Update, hk, hs, hr]
  have h3 : ∀ m : model TI L E, m.state = .stateProjectType →
      Update W m (.key k) = ({ m with state := .stateConfirm }, .nil) := by
    intro m hs
    simp [Update, hk, hs]
  have h4 : ∀ m : model TI L E, m.state = .stateConfirm →
      Update W m (.key k)
        = ({ m with state := .stateCreating },
           .generate { m with state := .stateCreating }) := by
    intro m hs
    simp [Update, hk, hs]
  refine ⟨h1, h2, h3, h4, ?_, ?_⟩
  · intro m _
    refine ⟨by simp [Update], by simp [Update], ?_⟩
    intro he
    simp [Update, he]
  · intro m hs hr
    simp only [runMsgs, List.foldl]
    rw [h2 m hs hr]
    simp only
    rw [h3 { m with state := .stateProjectType } rfl]
    simp only
    rw [h4 { m with state := .stateConfirm } rfl]
    simp [Update]

theorem confirm_path_witness :
    runMsgs simWidgets (initialModel "" "" 0) [.key "d", .key "e", .key "m", .key "o"]
      = simSession .stateProjectName "demo" "" 0 ∧
    Update simWidgets (simSession .stateProjectName "demo" "" 0) (.key "enter")
      = (simSession .stateGitRepo "demo" "" 0, .blink) ∧
    runMsgs simWidgets (simSession .stateGitRepo "demo" "" 0) [.key "x", .key "/", .key "y"]
      = simSession .stateGitRepo "demo" "x/y" 0 ∧
    Update simWidgets (simSession .stateGitRepo "demo" "x/y" 0) (.key "enter")
      = (simSession .stateProjectType "demo" "x/y" 0, .nil) ∧
    Update simWidgets (simSession .stateProjectType "demo" "x/y" 0) (.key "enter")
      = (simSession .stateConfirm "demo" "x/y" 0, .nil) ∧
    Update simWidgets (simSession .stateConfirm "demo" "x/y" 0) (.key "enter")
      = (simSession .stateCreating "demo" "x/y" 0,
         .generate (simSession .stateCreating "demo" "x/y" 0)) ∧
    Update simWidgets (simSession .stateCreating "demo" "x/y" 0) .doneMsg
      = (simSession .stateDone "demo" "x/y" 0, .nil) ∧
    runMsgs simWidgets (initialModel "" "" 0)
      [.key "d", .key "e", .key "m", .key "o", .key "enter", .key "x", .key "/", .key "y",
       .key "enter", .key "enter", .key "enter", .doneMsg]
      = simSession .stateDone "demo" "x/y" 0 :=
  have h := confirm_path simWidgets "enter" rfl
  ⟨rfl,
   h.1 (simSession .stateProjectName "demo" "" 0) rfl (by decide),
   rfl,
   h.2.1 (simSession .stateGitRepo "demo" "x/y" 0) rfl (by decide),
   h.2.2.1 (simSession .stateProjectType "demo" "x/y" 0) rfl,
   h.2.2.2.1 (simSession .stateConfirm "demo" "x/y" 0) rfl,
   (h.2.2.2.2.1 (simSession .stateCreating "demo" "x/y" 0) rfl).1,
   rfl⟩

end ControllerTheorems

/-! ## The generator: theorems -/

section GeneratorTheorems

variable {TI L K E O C σ : Type}

theorem occursIn_iff (sub s : List Char) : occursIn sub s = true ↔ sub <:+: s := by
  induction s with
  | nil => simp [occursIn]
  | cons c rest ih =>
    simp only [occursIn, Bool.or_eq_true, ih, List.isPrefixOf_iff_prefix, List.infix_cons_iff]

theorem Sprintf_goMod (repo : String) :
    Sprintf "module %s\n\ngo 1.21\n" [repo] = "module " ++ repo ++ "\n\ngo 1.21\n" := rfl

theorem Sprintf_readme (name archetype : String) :
    Sprintf "# %s\n\nA Go %s project.\n" [name, archetype]
      = "# " ++ name ++ "\n\nA Go " ++ archetype ++ " project.\n" := by
  apply String.ext
  simp [Sprintf, sprintfAux, extraArgs]

theorem createStructure_eq (S : OS σ E) (name archetype : String) (w : σ) :
    createStructure S name archetype w
      = (runAll S w (specArchetypeSteps S name archetype), specArchetypeSteps S name archetype) := by
  unfold createStructure specArchetypeSteps
  split
  · simp [runAll]
  · split <;> simp [runAll]

/-- The function `createProject` runs the five required steps up to the first
failure and returns it; when none fails it runs every archetype step, drops
their results and returns `nil`. -/
theorem createProject_eq (W : Widgets TI L K E O C) (S : OS σ E) (m : model TI L E) (w : σ)
    (item : projectType) (hsel : W.selectedItem m.typeList = some item) :
    createProject W S m w =
      match (runUntilFailure S w (specRequiredSteps S (W.value m.projectName)
          (W.value m.gitRepo) item.name)).result with
      | some _ => runUntilFailure S w (specRequiredSteps S (W.value m.projectName)
          (W.value m.gitRepo) item.name)
      | none =>
        ⟨runAll S (runUntilFailure S w (specRequiredSteps S (W.value m.projectName)
            (W.value m.gitRepo) item.name)).world
            (specArchetypeSteps S (W.value m.projectName) item.name),
          specRequiredSteps S (W.value m.projectName) (W.value m.gitRepo) item.name
            ++ specArchetypeSteps S (W.value m.projectName) item.name,
          none⟩ := by
  unfold createProject
  simp only [hsel, Sprintf_goMod, Sprintf_readme, createStructure_eq, specRequiredSteps,
    runUntilFailure]
  rcases h1 : S.exec w (.mkdirAll (W.value m.projectName) 0o755) with ⟨w1, _ | e1⟩
  swap
  · simp
  simp only
  rcases h2 : S.exec w1 (.writeFile (S.join (W.value m.projectName) "go.mod")
    ("module " ++ W.value m.gitRepo ++ "\n\ngo 1.21\n") 0o644) with ⟨w2, _ | e2⟩
  swap
  · simp
  simp only
  rcases h3 : S.exec w2 (.writeFile (S.join (W.value m.projectName) "main.go")
    (mainContent item.name (W.value m.gitRepo)) 0o644) with ⟨w3, _ | e3⟩
  swap
  · simp
  simp only
  rcases h4 : S.exec w3 (.writeFile (S.join (W.value m.projectName) "README.md")
    ("# " ++ W.value m.projectName ++ "\n\nA Go " ++ item.name ++ " project.\n") 0o644)
    with ⟨w4, _ | e4⟩
  swap
  · simp
  simp only
  rcases h5 : S.exec w4 (.writeFile (S.join (W.value m.projectName) ".gitignore")
    gitignoreContent 0o644) with ⟨w5, _ | e5⟩
  swap
  · simp
  simp

theorem runAll_take_succ (S : OS σ E) (w : σ) (steps : List FsOp) (i : Nat) (op : FsOp)
    (h : steps[i]? = some op) :
    runAll S w (steps.take (i + 1)) = (S.exec (runAll S w (steps.take i)) op).1 := by
  induction steps generalizing w i with
  | nil => simp at h
  | cons a rest ih =>
    cases i with
    | zero =>
      simp at h
      subst h
      simp [runAll]
    | succ j =>
      simp at h
      simp only [List.take_succ_cons, runAll]
      exact ih _ j (by simpa using h)

/-- When step `k` is the first to fail, with `e`, the run stops right after it. -/
theorem runUntilFailure_fail (S : OS σ E) (w : σ) (steps : List FsOp) (k : Nat) (e : E)
    (hok : ∀ i, i < k → stepResult S w steps i = none)
    (hfail : stepResult S w steps k = some e) :
    runUntilFailure S w steps
      = ⟨runAll S w (steps.take (k + 1)), steps.take (k + 1), some e⟩ := by
  induction steps generalizing w k with
  | nil => simp [stepResult] at hfail
  | cons a rest ih =>
    cases k with
    | zero =>
      simp [stepResult, runAll] at hfail
      rcases h : S.exec w a with ⟨w1, r⟩
      rw [h] at hfail
      simp at hfail
      subst hfail
      simp [runUntilFailure, h, runAll]
    | succ j =>
      have h0 := hok 0 (Nat.succ_pos j)
      simp [stepResult, runAll] at h0
      rcases h : S.exec w a with ⟨w1, r⟩
      rw [h] at h0
      simp at h0
      subst h0
      have hok2 : ∀ i, i < j → stepResult S w1 rest i = none := by
        intro i hi
        have := hok (i + 1) (Nat.succ_lt_succ hi)
        simpa [stepResult, runAll, h] using this
      have hfail2 : stepResult S w1 rest j = some e := by
        simpa [stepResult, runAll, h] using hfail
      simp [runUntilFailure, h, ih w1 j hok2 hfail2, runAll]

/-- When no step fails, every step is run. -/
theorem runUntilFailure_ok (S : OS σ E) (w : σ) (steps : List FsOp)
    (hok : ∀ i, i < steps.length → stepResult S w steps i = none) :
    runUntilFailure S w steps = ⟨runAll S w steps, steps, none⟩ := by
  induction steps generalizing w with
  | nil => simp [runUntilFailure, runAll]
  | cons a rest ih =>
    have h0 := hok 0 (by simp)
    simp [stepResult, runAll] at h0
    rcases h : S.exec w a with ⟨w1, r⟩
    rw [h] at h0
    simp at h0
    subst h0
    have hok2 : ∀ i, i < rest.length → stepResult S w1 rest i = none := by
      intro i hi
      have := hok (i + 1) (by simpa using hi)
      simpa [stepResult, runAll, h] using this
    simp [runUntilFailure, h, ih w1 hok2, runAll]

/-- C6: for a valid archetype selection, `createProject` performs (1) root
directory, (2) go.mod, (3) main.go, (4) README.md, (5) .gitignore in this order;
when step `k` of these is the first to fail, with error `e`, it returns exactly
`e`, has performed the steps up to that one and nothing else (no later step, no
archetype-specific call), and `Update` on that error gives `stateDone` with the
error field equal to `e`. -/
theorem first_failure_returned (W : Widgets TI L K E O C) (S : OS σ E) (m : model TI L E)
    (w : σ) (item : projectType) (k : Nat) (e : E)
    (hsel : W.selectedItem m.typeList = some item)
    (hok : ∀ i, i < k → stepResult S w (specRequiredSteps S (W.value m.projectName)
      (W.value m.gitRepo) item.name) i = none)
    (hfail : stepResult S w (specRequiredSteps S (W.value m.projectName)
      (W.value m.gitRepo) item.name) k = some e) :
    k < 5 ∧
    (createProject W S m w).result = some e ∧
    (createProject W S m w).trace
      = (specRequiredSteps S (W.value m.projectName) (W.value m.gitRepo) item.name).take
          (k + 1) ∧
    (createProject W S m w).world
      = runAll S w ((specRequiredSteps S (W.value m.projectName) (W.value m.gitRepo)
          item.name).take (k + 1)) ∧
    generateMsg W S m w = .error e ∧
    ∀ m' : model TI L E,
      (Update W m' (.error e)).1.state = .stateDone ∧
      (Update W m' (.error e)).1.err = some e := by
  have hk : k < 5 := by
    by_contra hge
    have hnone : (specRequiredSteps S (W.value m.projectName) (W.value m.gitRepo)
        item.name)[k]? = none := by
      apply List.getElem?_eq_none
      simp [specRequiredSteps]
      omega
    simp [stepResult, hnone] at hfail
  have hrun := runUntilFailure_fail S w _ k e hok hfail
  have hcp := createProject_eq W S m w item hsel
  rw [hrun] at hcp
  simp only at hcp
  refine ⟨hk, ?_, ?_, ?_, ?_, ?_⟩
  · rw [hcp]
  · rw [hcp]
  · rw [hcp]
  · simp [generateMsg, hcp]
  · intro m'
    simp [Update]

theorem first_failure_returned_witness :
    (createProject simWidgets (simOS ["demo/main.go"])
      (simSession .stateCreating "demo" "example.com/u/demo" 1) []).result
      = some "permission denied: demo/main.go" ∧
    (createProject simWidgets (simOS ["demo/main.go"])
      (simSession .stateCreating "demo" "example.com/u/demo" 1) []).trace
      = [ .mkdirAll "demo" 0o755,
          .writeFile "demo/go.mod" "module example.com/u/demo\n\ngo 1.21\n" 0o644,
          .writeFile "demo/main.go" (generateServerMainFile "example.com/u/demo") 0o644 ] := by
  have h := first_failure_returned simWidgets (simOS ["demo/main.go"])
    (simSession .stateCreating "demo" "example.com/u/demo" 1) []
    ⟨"server", "HTTP/API server"⟩ 2 "permission denied: demo/main.go" rfl
    (by intro i hi; interval_cases i <;> rfl) rfl
  refine ⟨h.2.1, ?_⟩
  rw [h.2.2.1]
  rfl

/-- C7 as amended: the archetype-specific step is best-effort for every
archetype. When the five required steps succeed, `createProject` returns `nil`
whatever the archetype calls return, for `cli` as for `server`; every
archetype call is made, in order, and its result is dropped. -/
theorem archetype_step_best_effort (W : Widgets TI L K E O C) (S : OS σ E)
    (m : model TI L E) (w : σ) (item : projectType)
    (hsel : W.selectedItem m.typeList = some item)
    (hok : ∀ i, i < 5 → stepResult S w (specRequiredSteps S (W.value m.projectName)
      (W.value m.gitRepo) item.name) i = none) :
    (createProject W S m w).result = none ∧
    (createProject W S m w).trace
      = specRequiredSteps S (W.value m.projectName) (W.value m.gitRepo) item.name
        ++ specArchetypeSteps S (W.value m.projectName) item.name ∧
    (createProject W S m w).world
      = runAll S (runAll S w (specRequiredSteps S (W.value m.projectName)
          (W.value m.gitRepo) item.name))
          (specArchetypeSteps S (W.value m.projectName) item.name) := by
  have hrun := runUntilFailure_ok S w (specRequiredSteps S (W.value m.projectName)
    (W.value m.gitRepo) item.name) (by
      intro i hi
      exact hok i (by simpa [specRequiredSteps] using hi))
  have hcp := createProject_eq W S m w item hsel
  rw [hrun] at hcp
  simp only at hcp
  rw [hcp]
  exact ⟨rfl, rfl, rfl⟩

theorem archetype_step_best_effort_witness :
    (createProject simWidgets (simOS ["demo/api", "demo/internal/handlers"])
      (simSession .stateCreating "demo" "example.com/u/demo" 1) []).result = none ∧
    ((createProject simWidgets (simOS ["demo/api", "demo/internal/handlers"])
      (simSession .stateCreating "demo" "example.com/u/demo" 1) []).trace.map FsOp.path)
      = ["demo", "demo/go.mod", "demo/main.go", "demo/README.md", "demo/.gitignore",
         "demo/api", "demo/internal/handlers", "demo/internal/middleware",
         "demo/internal/handlers/health.go"] := by
  have h := archetype_step_best_effort simWidgets (simOS ["demo/api", "demo/internal/handlers"])
    (simSession .stateCreating "demo" "example.com/u/demo" 1) []
    ⟨"server", "HTTP/API server"⟩ rfl
    (by intro i hi; interval_cases i <;> rfl)
  refine ⟨h.1, ?_⟩
  rw [h.2.1]
  rfl

/-- C7 as stated fails: for `cli`, with the five required steps succeeding and
the creation of `demo/cmd` failing, `createProject` still calls for
`demo/internal` and returns `nil`, not that failure. -/
theorem cli_subdirectory_failure_dropped :
    (∀ i, i < 5 → stepResult (simOS ["demo/cmd"]) []
      (specRequiredSteps (simOS ["demo/cmd"]) "demo" "example.com/u/demo" "cli") i = none) ∧
    ((simOS ["demo/cmd"]).exec
      (runAll (simOS ["demo/cmd"]) []
        (specRequiredSteps (simOS ["demo/cmd"]) "demo" "example.com/u/demo" "cli"))
      (.mkdirAll "demo/cmd" 0o755)).2 = some "permission denied: demo/cmd" ∧
    (createProject simWidgets (simOS ["demo/cmd"])
      (simSession .stateCreating "demo" "example.com/u/demo" 0) []).result = none ∧
    (createProject simWidgets (simOS ["demo/cmd"])
      (simSession .stateCreating "demo" "example.com/u/demo" 0) []).result
      ≠ some "permission denied: demo/cmd" ∧
    ((createProject simWidgets (simOS ["demo/cmd"])
      (simSession .stateCreating "demo" "example.com/u/demo" 0) []).trace.map FsOp.path)
      = ["demo", "demo/go.mod", "demo/main.go", "demo/README.md", "demo/.gitignore",
         "demo/cmd", "demo/internal"] := by
  refine ⟨?_, rfl, rfl, ?_, rfl⟩
  · intro i hi
    interval_cases i <;> rfl
  · have h : (createProject simWidgets (simOS ["demo/cmd"])
      (simSession .stateCreating "demo" "example.com/u/demo" 0) []).result = none := rfl
    rw [h]
    simp

theorem sprintfAux_plain (pre rest : List Char) (args : List String) (h : '%' ∉ pre) :
    sprintfAux false (pre ++ rest) args = pre ++ sprintfAux false rest args := by
  induction pre with
  | nil => rfl
  | cons c tl ih =>
    have hc : c ≠ '%' := fun hh => h (by simp [hh])
    have htl : '%' ∉ tl := fun hh => h (by simp [hh])
    simp [sprintfAux, hc, ih htl]

theorem sprintfAux_one_operand (pre post out : List Char) (r : String) (h : '%' ∉ pre)
    (hpost : sprintfAux false post [] = out) :
    sprintfAux false (pre ++ '%' :: 's' :: post) [r] = pre ++ (r.data ++ out) := by
  rw [sprintfAux_plain _ _ _ h]
  simp [sprintfAux, hpost]

theorem generateServerMainFile_data (r : String) :
    (generateServerMainFile r).data = sprintfAux false serverTemplate.data [r] := rfl

set_option maxRecDepth 20000 in
/-- The server main file is the text before the `%s` of the template, the
repository path, and the text after it. -/
theorem generateServerMainFile_eq (r : String) :
    generateServerMainFile r = serverMainHead ++ r ++ serverMainTail := by
  have h1 : serverTemplate.data
      = serverMainHead.data ++ '%' :: 's' :: serverTemplate.data.drop 103 :=
    eq_of_beq (by decide)
  have h2 : sprintfAux false (serverTemplate.data.drop 103) [] = serverMainTail.data :=
    eq_of_beq (by decide)
  have h3 : '%' ∉ serverMainHead.data := by decide
  have key := sprintfAux_one_operand serverMainHead.data (serverTemplate.data.drop 103)
    serverMainTail.data r h3 h2
  apply String.ext
  rw [String.data_append, String.data_append, List.append_assoc, ← key, ← h1]
  exact generateServerMainFile_data r

set_option maxRecDepth 20000 in
/-- C9 (defect in the code): for `server`, the text written to
internal/handlers/health.go has the Content-Type and `http.StatusOK` lines, but
its `w.Write` line carries two backslashes before each inner quote; the
expression with singly escaped quotes, whose literal would denote the body
`{"status": "ok"}`, does not occur in it. -/
theorem health_handler_double_escaped :
    (createProject simWidgets (simOS [])
      (simSession .stateCreating "demo" "example.com/u/demo" 1) []).trace.getLast?
      = some (.writeFile "demo/internal/handlers/health.go" handlerContent 0o644) ∧
    "\tw.Header().Set(\"Content-Type\", \"application/json\")\n".data
      <:+: handlerContent.data ∧
    "\tw.WriteHeader(http.StatusOK)\n".data <:+: handlerContent.data ∧
    "\tw.Write([]byte(\"\x7b\\\\\"status\\\\\": \\\\\"ok\\\\\"\x7d\"))\n".data
      <:+: handlerContent.data ∧
    ¬ ("w.Write([]byte(\"\x7b\\\"status\\\": \\\"ok\\\"\x7d\"))".data
      <:+: handlerContent.data) := by
  refine ⟨rfl, (occursIn_iff _ _).mp (by decide), (occursIn_iff _ _).mp (by decide),
    (occursIn_iff _ _).mp (by decide), ?_⟩
  intro h
  exact absurd ((occursIn_iff _ _).mpr h) (by decide)

set_option maxRecDepth 20000 in
/-- C10: the content of main.go is picked by the archetype name alone among
three fixed texts. For `cli` and for any name other than `cli` and `server`
(so for `library`) it is the same text for every repository path; for `server`
it is `serverMainHead`, the repository path, `serverMainTail`, the path standing
in the import line `"<repo>/internal/handlers"`, so that two paths give equal
contents only when they are equal. -/
theorem main_content_by_archetype :
    (∀ r₁ r₂ : String, mainContent "cli" r₁ = mainContent "cli" r₂) ∧
    (∀ r : String, mainContent "cli" r = Sprintf cliTemplate []) ∧
    (∀ r : String, mainContent "server" r = serverMainHead ++ r ++ serverMainTail) ∧
    "import (".data <:+: serverMainHead.data ∧
    "\n\t\"".data <:+ serverMainHead.data ∧
    "/internal/handlers\"\n)\n".data <+: serverMainTail.data ∧
    (∀ r₁ r₂ : String, mainContent "server" r₁ = mainContent "server" r₂ → r₁ = r₂) ∧
    (∀ t r : String, t ≠ "cli" → t ≠ "server" → mainContent t r = libraryTemplate) ∧
    (∀ r : String, mainContent "library" r = libraryTemplate) := by
  have hserver : ∀ r : String, mainContent "server" r = serverMainHead ++ r ++ serverMainTail := by
    intro r
    rw [← generateServerMainFile_eq]
    rfl
  have hcli : ∀ r : String, mainContent "cli" r = Sprintf cliTemplate [] := fun _ => rfl
  refine ⟨fun r₁ r₂ => (hcli r₁).trans (hcli r₂).symm, hcli, hserver,
    (occursIn_iff _ _).mp (by decide),
    by decide, by decide, ?_, ?_, fun _ => rfl⟩
  · intro r₁ r₂ h
    rw [hserver, hserver] at h
    have h2 := congrArg String.data h
    simp only [String.data_append, List.append_assoc] at h2
    have h3 := List.append_cancel_left h2
    have h4 := List.append_cancel_right h3
    exact String.ext h4
  · intro t r h1 h2
    simp [mainContent, h1, h2, generateLibraryMainFile]

theorem main_content_by_archetype_witness :
    mainContent "library" "example.com/u/demo" = libraryTemplate ∧
    mainContent "package" "example.com/u/demo" = libraryTemplate ∧
    mainContent "server" "example.com/u/demo"
      = serverMainHead ++ "example.com/u/demo" ++ serverMainTail :=
  ⟨main_content_by_archetype.2.2.2.2.2.2.2.1 "library" "example.com/u/demo"
      (by decide) (by decide),
   main_content_by_archetype.2.2.2.2.2.2.2.1 "package" "example.com/u/demo"
      (by decide) (by decide),
   main_content_by_archetype.2.2.1 "example.com/u/demo"⟩

end GeneratorTheorems

end Whisk
